import Mathlib

/-!
Verification development for the survey analysis engine in
`src/utils/reportGenerator.js` (class `ReportGenerator`).

The JavaScript code is shallowly embedded below.  A CSV row is modelled as a
department string plus a list of `(question number, question text, answer
text)` triples: the CSV header pairs a `Question N` column with an `Answer N`
column, and a missing or empty cell is modelled as the empty string (both are
falsy in the JS truthiness checks the code performs, which is the only way the
code inspects them).  All numeric contributions the scorer produces are
non-negative integers (`(stars/5)*100 = stars*20`, and the fixed weight
table), so scores are modelled with `Nat` and JavaScript `Math.round(p/q)` as
`(2*p + q) / (2*q)` in natural division.
-/

namespace Survey

/-- JavaScript whitespace (the ASCII part of `\s` / `String.prototype.trim`). -/
def isJsSpace (c : Char) : Bool :=
  c = ' ' || c = '\t' || c = '\n' || c = '\r' || c = '\x0b' || c = '\x0c'

/-- `String.prototype.trim()` restricted to ASCII whitespace. -/
def jsTrim (s : String) : String :=
  ⟨(((s.data.dropWhile isJsSpace).reverse).dropWhile isJsSpace).reverse⟩

/-- Numeric value of a decimal digit list (`Number.parseInt` on a `\d+` match). -/
def natOfDigits (ds : List Char) : Nat :=
  ds.foldl (fun n c => n * 10 + (c.toNat - 48)) 0

/-- Does the character list start with `star` case-insensitively?  This is the
mandatory part of the regex tail `stars?` (the final `s` is optional, so only
the prefix `star` must be present). -/
def startsWithStar : List Char → Bool
  | s :: t :: a :: r :: _ =>
      s.toLower = 's' && t.toLower = 't' && a.toLower = 'a' && r.toLower = 'r'
  | _ => false

/-- Try to match `/(\d+)\s*stars?/i` at the head of the character list.
Since a digit can never begin `star` and whitespace can never begin `star`,
the greedy runs need no backtracking. -/
def matchStarAt (l : List Char) : Option Nat :=
  let ds := l.takeWhile Char.isDigit
  if ds.isEmpty then none
  else
    let rest := (l.dropWhile Char.isDigit).dropWhile isJsSpace
    if startsWithStar rest then some (natOfDigits ds) else none

/-- Scan for the leftmost match of `/(\d+)\s*stars?/i`, returning the captured
digit group, as in `answer.match(/(\d+)\s*stars?/i)`. -/
def starScan : List Char → Option Nat
  | [] => none
  | c :: cs =>
    match matchStarAt (c :: cs) with
    | some n => some n
    | none => starScan cs

/-- `answer.match(/(\d+)\s*stars?/i)` returning the parsed first capture group. -/
def starMatch (s : String) : Option Nat :=
  starScan s.data

/-- JavaScript comma split: `answer.split(",")`. -/
def splitCommaAux : List Char → List Char → List (List Char)
  | [], cur => [cur.reverse]
  | c :: cs, cur =>
      if c = ',' then cur.reverse :: splitCommaAux cs [] else splitCommaAux cs (c :: cur)

/-- `answer.split(",").map((opt) => opt.trim())`. -/
def jsSplitTrim (s : String) : List String :=
  (splitCommaAux s.data []).map (fun l => jsTrim ⟨l⟩)

/-- `Math.round(p / q)` for naturals `p` and `q > 0` (round half up). -/
def jsRound (p q : Nat) : Nat :=
  (2 * p + q) / (2 * q)

/-- One `Question N` / `Answer N` column pair of a row.  `qnum` is the `N`
token extracted by `key.split(" ")[1]`. -/
structure QA where
  qnum : String
  question : String
  answer : String
deriving DecidableEq

/-- One CSV row as produced by `csv-parser`: the `Department` cell (empty
string when the cell is empty or the column is missing) and the question /
answer column pairs in header order. -/
structure Row where
  department : String
  qa : List QA
deriving DecidableEq

/-- The mutable accumulator of `calculateSatisfactionPercentage`. -/
structure Score where
  satScore : Nat
  dissScore : Nat
  satCount : Nat
  dissCount : Nat
deriving DecidableEq

/-- The record returned by `calculateSatisfactionPercentage`. -/
structure Metrics where
  satisfaction : Nat
  dissatisfaction : Nat
deriving DecidableEq

/-- The five-option vocabulary `["Very Satisfied", "Satisfied", "Neutral",
"Dissatisfied", "Very Dissatisfied"]` (`mcqOptions` / `satisfactionLevels`). -/
def mcqOptions : List String :=
  ["Very Satisfied", "Satisfied", "Neutral", "Dissatisfied", "Very Dissatisfied"]

/-- The bare star digits accepted by `/^[1-5]$/`. -/
def starDigits : List String := ["1", "2", "3", "4", "5"]

/-- The body of the per-answer loop of `calculateSatisfactionPercentage`
(lines 623-668): skip when the answer or the question is falsy; otherwise
score a `/(\d+)\s*stars?/i` match as `(stars/5)*100 = stars*20` satisfied when
`stars >= 3` and `((5-stars)/5)*100 = (5-stars)*20` dissatisfied otherwise;
otherwise look the trimmed answer up in `satisfactionLevels`
(`Very Satisfied: 100, Satisfied: 75, Neutral: 50, Dissatisfied: 25,
Very Dissatisfied: 0`), counting the two satisfied options with their weight
and the two dissatisfied options with `100 - weight`; `Neutral` and anything
outside the table contribute nothing. -/
def scoreAnswer (question answer : String) (acc : Score) : Score :=
  if answer = "" ∨ question = "" then acc
  else
    match starMatch answer with
    | some stars =>
        if 3 ≤ stars then
          { acc with satScore := acc.satScore + stars * 20, satCount := acc.satCount + 1 }
        else
          { acc with dissScore := acc.dissScore + (5 - stars) * 20,
                     dissCount := acc.dissCount + 1 }
    | none =>
        if jsTrim answer = "Very Satisfied" then
          { acc with satScore := acc.satScore + 100, satCount := acc.satCount + 1 }
        else if jsTrim answer = "Satisfied" then
          { acc with satScore := acc.satScore + 75, satCount := acc.satCount + 1 }
        else if jsTrim answer = "Dissatisfied" then
          { acc with dissScore := acc.dissScore + 75, dissCount := acc.dissCount + 1 }
        else if jsTrim answer = "Very Dissatisfied" then
          { acc with dissScore := acc.dissScore + 100, dissCount := acc.dissCount + 1 }
        else acc

/-- The raw totals accumulated by `calculateSatisfactionPercentage` over all
`Answer N` columns of all responses. -/
def scoreTotals (rs : List Row) : Score :=
  rs.foldl (fun acc r => r.qa.foldl (fun a p => scoreAnswer p.question p.answer a) acc)
    ⟨0, 0, 0, 0⟩

/-- `calculateSatisfactionPercentage` (lines 617-675): the rounded averages of
the accumulated scores, `0` when the corresponding count is zero. -/
def calculateSatisfactionPercentage (rs : List Row) : Metrics :=
  { satisfaction :=
      if 0 < (scoreTotals rs).satCount then
        jsRound (scoreTotals rs).satScore (scoreTotals rs).satCount
      else 0
  , dissatisfaction :=
      if 0 < (scoreTotals rs).dissCount then
        jsRound (scoreTotals rs).dissScore (scoreTotals rs).dissCount
      else 0 }

/-- `determineQuestionType` (lines 678-702).  Note that the `allAnswers`
parameter is accepted but never read by the source, exactly as here: the
result depends only on the single `answer` argument.  The empty string models
the falsy `answer` cases (`undefined` or `""`). -/
def determineQuestionType (answer : String) (allAnswers : List String) : String :=
  if answer ≠ "" ∧ jsTrim answer ∈ starDigits then "StarRating"
  else if answer ≠ "" ∧ (starMatch answer).isSome then "StarRating"
  else if answer ≠ "" ∧ answer.data.contains ',' then "Checkbox"
  else if answer ≠ "" ∧ jsTrim answer ∈ mcqOptions then "MCQ"
  else "Text"

/-- One per-question entry of `questionAnalysis[qNum]` (lines 185-190):
question text, option counts (`responses`, an insertion-ordered map),
`responseCount`, and the cached `type` string. -/
structure QInfo where
  question : String
  counts : List (String × Nat)
  responseCount : Nat
  type : String
deriving DecidableEq

/-- Lookup in an insertion-ordered string-keyed map (JS property access). -/
def alookup {α : Type} (k : String) : List (String × α) → Option α
  | [] => none
  | (k', v) :: rest => if k' = k then some v else alookup k rest

/-- Update the value stored at key `k` (JS property mutation; keys are unique
by construction, so rewriting every matching entry is the same operation). -/
def updateEntry {α : Type} : List (String × α) → String → (α → α) → List (String × α)
  | [], _, _ => []
  | (k', v) :: rest, k, f =>
      if k' = k then (k', f v) :: updateEntry rest k f
      else (k', v) :: updateEntry rest k f

/-- `counts[key] = (counts[key] || 0) + 1`. -/
def bump : List (String × Nat) → String → List (String × Nat)
  | [], k => [(k, 1)]
  | (k', n) :: rest, k =>
      if k' = k then (k', n + 1) :: rest else (k', n) :: bump rest k

/-- `deptResponses.map((r) => r[answerKey]).filter((a) => a && a !== "No answer")`
(lines 181-183): every department response's answer to question `q`, with
missing answers modelled as `""`, keeping only truthy non-sentinel answers. -/
def allAnswersFor (dr : List Row) (q : String) : List String :=
  (dr.map (fun r =>
      match r.qa.find? (fun p => p.qnum = q) with
      | some p => p.answer
      | none => "")).filter (fun a => a ≠ "" ∧ a ≠ "No answer")

/-- The entry created for a freshly seen question (lines 185-190). -/
def mkEntry (dr : List Row) (p : QA) : QInfo :=
  { question := p.question
  , counts := []
  , responseCount := 0
  , type := determineQuestionType p.answer (allAnswersFor dr p.qnum) }

/-- The tally step for one non-empty, non-sentinel answer (lines 195-212):
star ratings count only bare digits `1`-`5` after trimming, checkboxes split
on commas and trim each token, everything else counts the answer verbatim;
`responseCount` is always incremented. -/
def tallyAnswer (answer : String) (qi : QInfo) : QInfo :=
  if qi.type = "StarRating" then
    { qi with
      counts :=
        if jsTrim answer ∈ starDigits then bump qi.counts (jsTrim answer) else qi.counts
      , responseCount := qi.responseCount + 1 }
  else if qi.type = "Checkbox" then
    { qi with counts := (jsSplitTrim answer).foldl bump qi.counts
            , responseCount := qi.responseCount + 1 }
  else
    { qi with counts := bump qi.counts answer
            , responseCount := qi.responseCount + 1 }

/-- `if (!questionAnalysis[qNum]) { questionAnalysis[qNum] = ... }`
(lines 179-191): create the entry if absent, caching the type computed from
this row's answer. -/
def insEntry (dr : List Row) (m : List (String × QInfo)) (p : QA) :
    List (String × QInfo) :=
  if (alookup p.qnum m).isSome then m else m ++ [(p.qnum, mkEntry dr p)]

/-- Processing of one `Question N` column of one response (lines 173-213):
create the `questionAnalysis[qNum]` entry if absent (caching the type computed
from this row's answer), then, unless the answer is falsy or the sentinel
`"No answer"`, tally it according to the cached type. -/
def stepQA (dr : List Row) (m : List (String × QInfo)) (p : QA) :
    List (String × QInfo) :=
  if p.answer = "" ∨ p.answer = "No answer" then insEntry dr m p
  else updateEntry (insEntry dr m p) p.qnum (tallyAnswer p.answer)

/-- Fold one response's question columns into the analysis map. -/
def stepRow (dr : List Row) (m : List (String × QInfo)) (r : Row) :
    List (String × QInfo) :=
  r.qa.foldl (stepQA dr) m

/-- `questionAnalysis` for one department's responses (lines 170-215). -/
def questionAnalysisFor (dr : List Row) : List (String × QInfo) :=
  dr.foldl (stepRow dr) []

/-- `[...new Set(responses.map((r) => r["Department"]))]` (line 135):
departments in first-occurrence order. -/
def uniqueDepartments (rs : List Row) : List String :=
  rs.foldl (fun acc r => if r.department ∈ acc then acc else acc ++ [r.department]) []

/-- The dissatisfaction percentage of one department's filtered responses. -/
def deptDissat (rs : List Row) (d : String) : Nat :=
  (calculateSatisfactionPercentage (rs.filter (fun r => r.department = d))).dissatisfaction

/-- The `departments.forEach` maximum search (lines 140-152): keep the first
department whose value strictly exceeds the running best, starting from
`("", 0)`. -/
def bestFold (f : String → Nat) (ds : List String) (acc : String × Nat) :
    String × Nat :=
  ds.foldl (fun b d => if f d > b.2 then (d, f d) else b) acc

/-- `highestDissatisfactionDept` / `highestDissatisfactionRate` (lines 140-152). -/
def findHighestDissat (rs : List Row) : String × Nat :=
  bestFold (deptDissat rs) (uniqueDepartments rs) ("", 0)

/-- `analysis.overview` (lines 154-161).  The source renders the two averages
as `"N%"` strings; the numeric part is modelled. -/
structure Overview where
  numberOfDepartments : Nat
  averageSatisfaction : Nat
  averageDissatisfaction : Nat
  departmentWithHighestDissatisfaction : String
  highestDissatisfactionRate : Nat
deriving DecidableEq

/-- The full analysis object returned by `generateAnalysis`. -/
structure Analysis where
  overview : Overview
  departmentStats : List (String × List (String × QInfo))
deriving DecidableEq

/-- `generateAnalysis` (lines 132-227): overall metrics over all pooled
responses, the strict-maximum dissatisfaction search (an empty winning name is
rendered `"None"` by the JS string-truthiness test on line 159), and
per-department question analyses over department-filtered responses. -/
def generateAnalysis (rs : List Row) : Analysis :=
  { overview :=
    { numberOfDepartments := (uniqueDepartments rs).length
    , averageSatisfaction := (calculateSatisfactionPercentage rs).satisfaction
    , averageDissatisfaction := (calculateSatisfactionPercentage rs).dissatisfaction
    , departmentWithHighestDissatisfaction :=
        if (findHighestDissat rs).1 = "" then "None" else (findHighestDissat rs).1
    , highestDissatisfactionRate := (findHighestDissat rs).2 }
  , departmentStats :=
      (uniqueDepartments rs).map
        (fun d => (d, questionAnalysisFor (rs.filter (fun r => r.department = d)))) }

/-- `response.department || "Unknown"` (line 105 in `analyze`): the falsy
empty string is replaced by the literal `"Unknown"`. -/
def deptOrUnknown (d : String) : String :=
  if d = "" then "Unknown" else d

/-- `departmentResponses[dept].push(response)` grouping used by `analyze`
(lines 103-110), keyed by `deptOrUnknown`. -/
def addToGroup : List (String × List Row) → String → Row → List (String × List Row)
  | [], d, r => [(d, [r])]
  | (d', g) :: rest, d, r =>
      if d' = d then (d', g ++ [r]) :: rest else (d', g) :: addToGroup rest d r

/-- The department grouping built by `analyze` (lines 103-110). -/
def analyzeGroups (rs : List Row) : List (String × List Row) :=
  rs.foldl (fun gs r => addToGroup gs (deptOrUnknown r.department) r) []

/-- Classifier following the spec's words (section 4.2), for comparison with
`determineQuestionType`: StarRating if any sample matches the star pattern or
every sample of a non-empty sample set is a bare digit 1-5; otherwise
MultiSelect if any sample contains a comma; otherwise SingleChoice if every
sample of a non-empty sample set is in the five-option vocabulary; otherwise
Text. -/
def classifySpec (samples : List String) : String :=
  if samples.any (fun a => (starMatch a).isSome)
      || (!samples.isEmpty && samples.all (fun a => a ∈ starDigits)) then "StarRating"
  else if samples.any (fun a => a.data.contains ',') then "MultiSelect"
  else if !samples.isEmpty && samples.all (fun a => a ∈ mcqOptions) then "SingleChoice"
  else "Text"

/-- The rounded mean of the per-department satisfaction percentages; this is
the aggregation the overall metrics do NOT use (they pool the raw
contributions instead). -/
def deptAvgOfAverages (rs : List Row) : Nat :=
  jsRound
    ((uniqueDepartments rs).foldl
      (fun s d => s + (calculateSatisfactionPercentage
          (rs.filter (fun r => r.department = d))).satisfaction) 0)
    (uniqueDepartments rs).length

/-- Invariant: every question entry typed `StarRating` counts only the bare
digit options `1`-`5`. -/
def StarInv (m : List (String × QInfo)) : Prop :=
  ∀ e ∈ m, e.2.type = "StarRating" → ∀ p ∈ e.2.counts, p.1 ∈ starDigits

/-- One question answered `Red, Blue` in the first row and `3 stars` in the
second row of the same department. -/
def exC1 : List Row :=
  [⟨"A", [⟨"1", "Q", "Red, Blue"⟩]⟩, ⟨"A", [⟨"1", "Q", "3 stars"⟩]⟩]

/-- One question answered with the bare digit `4`. -/
def exC2 : List Row := [⟨"A", [⟨"1", "Rate", "4"⟩]⟩]

/-- A free-text question whose second answer happens to equal a vocabulary
option. -/
def exC3 : List Row :=
  [⟨"A", [⟨"1", "Feedback", "It was fine"⟩]⟩,
   ⟨"A", [⟨"1", "Feedback", "Very Satisfied"⟩]⟩]

/-- A question first seen with an empty answer cell, answered `5 stars` in the
next row. -/
def exC4 : List Row :=
  [⟨"A", [⟨"1", "Rate", ""⟩]⟩, ⟨"A", [⟨"1", "Rate", "5 stars"⟩]⟩]

/-- Department A with one `Very Satisfied` answer and department B with two
`Satisfied` answers: pooled satisfaction 83, mean of department percentages 88. -/
def exC5 : List Row :=
  [⟨"A", [⟨"1", "Q", "Very Satisfied"⟩]⟩,
   ⟨"B", [⟨"1", "Q", "Satisfied"⟩]⟩,
   ⟨"B", [⟨"1", "Q", "Satisfied"⟩]⟩]

/-- A single response whose `Department` cell is empty and whose answer is
maximally dissatisfied. -/
def exC6 : List Row := [⟨"", [⟨"1", "Q", "Very Dissatisfied"⟩]⟩]

/-- A single `7 stars` answer: the star regex parses 7 and the scorer adds
`7 * 20 = 140` satisfaction. -/
def exC7 : List Row := [⟨"A", [⟨"1", "Q", "7 stars"⟩]⟩]

/-- A single response with an empty `Department` cell. -/
def exC9 : List Row := [⟨"", [⟨"1", "Q", "Hello"⟩]⟩]

/-- A star-rating question answered `5 stars` (scored, not counted) and `4`
(counted). -/
def exC10 : List Row :=
  [⟨"A", [⟨"1", "Q", "5 stars"⟩]⟩, ⟨"A", [⟨"1", "Q", "4"⟩]⟩]

/-! ### Helper lemmas -/

/-- A fold preserves any invariant its step preserves. -/
theorem foldl_inv {α β : Type} (P : α → Prop) (f : α → β → α)
    (hf : ∀ a b, P a → P (f a b)) :
    ∀ (l : List β) (a : α), P a → P (l.foldl f a) := by
  intro l
  induction l with
  | nil => intro a h; exact h
  | cons b rest ih => intro a h; exact ih (f a b) (hf a b h)

theorem alookup_append_left {α : Type} {k : String} {m : List (String × α)} {v : α}
    (h : alookup k m = some v) (l : List (String × α)) :
    alookup k (m ++ l) = some v := by
  induction m with
  | nil => simp [alookup] at h
  | cons e rest ih =>
    obtain ⟨k', v'⟩ := e
    simp only [alookup] at h
    simp only [List.cons_append, alookup]
    by_cases hk : k' = k
    · rw [if_pos hk] at h ⊢
      exact h
    · rw [if_neg hk] at h ⊢
      exact ih h

theorem alookup_mem {α : Type} {k : String} {m : List (String × α)} {v : α}
    (h : alookup k m = some v) : (k, v) ∈ m := by
  induction m with
  | nil => simp [alookup] at h
  | cons e rest ih =>
    obtain ⟨k', v'⟩ := e
    simp only [alookup] at h
    by_cases hk : k' = k
    · subst hk
      rw [if_pos rfl] at h
      obtain rfl : v' = v := Option.some.inj h
      exact List.mem_cons_self _ _
    · rw [if_neg hk] at h
      exact List.mem_cons_of_mem _ (ih h)

theorem alookup_updateEntry_eq {α : Type} (m : List (String × α)) (k : String)
    (f : α → α) : alookup k (updateEntry m k f) = (alookup k m).map f := by
  induction m with
  | nil => rfl
  | cons e rest ih =>
    obtain ⟨k', v'⟩ := e
    simp only [updateEntry]
    by_cases hk : k' = k
    · rw [if_pos hk]
      simp only [alookup, if_pos hk]
      rfl
    · rw [if_neg hk]
      simp only [alookup, if_neg hk]
      exact ih

theorem alookup_updateEntry_ne {α : Type} (m : List (String × α)) {k q : String}
    (f : α → α) (h : k ≠ q) : alookup q (updateEntry m k f) = alookup q m := by
  induction m with
  | nil => rfl
  | cons e rest ih =>
    obtain ⟨k', v'⟩ := e
    simp only [updateEntry]
    by_cases hk : k' = k
    · rw [if_pos hk]
      have hq : ¬ k' = q := by rw [hk]; exact h
      simp only [alookup, if_neg hq]
      exact ih
    · rw [if_neg hk]
      simp only [alookup]
      by_cases hq : k' = q
      · rw [if_pos hq, if_pos hq]
      · rw [if_neg hq, if_neg hq]
        exact ih

theorem mem_updateEntry {α : Type} {k : String} {f : α → α} :
    ∀ {m : List (String × α)} {e' : String × α}, e' ∈ updateEntry m k f →
      e' ∈ m ∨ ∃ e, e ∈ m ∧ e' = (e.1, f e.2) := by
  intro m
  induction m with
  | nil =>
    intro e' h
    simp [updateEntry] at h
  | cons e rest ih =>
    obtain ⟨k', v'⟩ := e
    intro e' h
    simp only [updateEntry] at h
    by_cases hk : k' = k
    · rw [if_pos hk] at h
      rcases List.mem_cons.1 h with h1 | h1
      · right; exact ⟨(k', v'), List.mem_cons_self _ _, h1⟩
      · rcases ih h1 with h2 | ⟨e, he, hfe⟩
        · left; exact List.mem_cons_of_mem _ h2
        · right; exact ⟨e, List.mem_cons_of_mem _ he, hfe⟩
    · rw [if_neg hk] at h
      rcases List.mem_cons.1 h with h1 | h1
      · left; rw [h1]; exact List.mem_cons_self _ _
      · rcases ih h1 with h2 | ⟨e, he, hfe⟩
        · left; exact List.mem_cons_of_mem _ h2
        · right; exact ⟨e, List.mem_cons_of_mem _ he, hfe⟩

theorem alookup_map_graph {α : Type} (g : String → α) (l : List String)
    (k : String) (v : α)
    (h : alookup k (l.map (fun d => (d, g d))) = some v) : v = g k := by
  induction l with
  | nil => simp [alookup] at h
  | cons d rest ih =>
    by_cases hd : d = k
    · subst hd
      simp [alookup] at h
      exact h.symm
    · simp only [List.map_cons, alookup, hd, if_false] at h
      exact ih h

theorem tallyAnswer_type (a : String) (qi : QInfo) :
    (tallyAnswer a qi).type = qi.type := by
  unfold tallyAnswer
  split_ifs <;> rfl

theorem mem_bump_keys {k : String} :
    ∀ {c : List (String × Nat)} {p : String × Nat},
      p ∈ bump c k → p.1 = k ∨ ∃ e, e ∈ c ∧ p.1 = e.1 := by
  intro c
  induction c with
  | nil =>
    intro p h
    simp [bump] at h
    left
    simp [h]
  | cons e rest ih =>
    obtain ⟨k', n⟩ := e
    intro p h
    by_cases hk : k' = k
    · subst hk
      simp only [bump, if_pos rfl] at h
      rcases List.mem_cons.1 h with h1 | h1
      · left; simp [h1]
      · right; exact ⟨p, List.mem_cons_of_mem _ h1, rfl⟩
    · simp only [bump, hk, if_false] at h
      rcases List.mem_cons.1 h with h1 | h1
      · right; exact ⟨(k', n), List.mem_cons_self _ _, by simp [h1]⟩
      · rcases ih h1 with h2 | ⟨e, he, hpe⟩
        · left; exact h2
        · right; exact ⟨e, List.mem_cons_of_mem _ he, hpe⟩

/-- Any answer that matches neither the star regex nor one of the four scored
vocabulary options leaves the accumulator untouched. -/
theorem scoreAnswer_unscored (q a : String) (acc : Score)
    (h1 : starMatch a = none)
    (h2 : jsTrim a ≠ "Very Satisfied") (h3 : jsTrim a ≠ "Satisfied")
    (h4 : jsTrim a ≠ "Dissatisfied") (h5 : jsTrim a ≠ "Very Dissatisfied") :
    scoreAnswer q a acc = acc := by
  unfold scoreAnswer
  by_cases h : a = "" ∨ q = ""
  · rw [if_pos h]
  · rw [if_neg h, h1]
    simp only [h2, h3, h4, h5, if_false]

/-! ### Claim theorems -/

/-- Claim C1.  The claim says the type classifier is evaluated over all
non-empty answers observed for a question.  It is not: `determineQuestionType`
never reads its `allAnswers` argument, so classification uses only the first
answer seen.  On `exC1` the answers collected for question 1 are
`["Red, Blue", "3 stars"]`; a sample matches the star pattern, so the claimed
precedence yields StarRating (as `classifySpec` shows), yet the analysis
caches the type computed from the first answer alone, namely Checkbox
(the source's name for MultiSelect). -/
theorem classifier_uses_first_answer_only :
    ((alookup "A" (generateAnalysis exC1).departmentStats).bind
        (alookup "1")).map QInfo.type = some "Checkbox"
    ∧ allAnswersFor exC1 "1" = ["Red, Blue", "3 stars"]
    ∧ starMatch "3 stars" = some 3
    ∧ classifySpec ["Red, Blue", "3 stars"] = "StarRating"
    ∧ determineQuestionType "Red, Blue" ["Red, Blue", "3 stars"] = "Checkbox"
    ∧ "Checkbox" ≠ "StarRating" := by
  refine ⟨by decide, by decide, by decide, by decide, by decide, by decide⟩

/-- Claim C2, counterexample.  A StarRating question answered with the bare
digit `4` should, per the claim, contribute satisfied(80); the scorer's regex
`/(\d+)\s*stars?/i` does not match a bare digit and the digit is not in the
choice vocabulary, so the answer contributes nothing and the overall
satisfaction is 0, not 80. -/
theorem bare_digit_not_scored_cx :
    ((alookup "A" (generateAnalysis exC2).departmentStats).bind
        (alookup "1")).map QInfo.type = some "StarRating"
    ∧ (generateAnalysis exC2).overview.averageSatisfaction = 0
    ∧ (0 : Nat) ≠ 80 := by
  refine ⟨by decide, by decide, by decide⟩

/-- Claim C2, amended.  The scorer extracts stars only from a `"N star(s)"`
pattern (never from a bare digit): a pattern match with `stars ≥ 3`
contributes satisfied(stars/5 × 100) and with `stars < 3` contributes
dissatisfied((5−stars)/5 × 100), while a bare digit answer `1`-`5`
contributes nothing. -/
theorem starRating_scoring :
    (∀ (q a : String) (acc : Score) (s : Nat), q ≠ "" → a ≠ "" →
      starMatch a = some s →
      scoreAnswer q a acc =
        (if 3 ≤ s then
          { acc with satScore := acc.satScore + s * 20, satCount := acc.satCount + 1 }
        else
          { acc with dissScore := acc.dissScore + (5 - s) * 20,
                     dissCount := acc.dissCount + 1 }))
    ∧ (∀ (q a : String) (acc : Score), a ∈ starDigits → scoreAnswer q a acc = acc) := by
  constructor
  · intro q a acc s hq ha hm
    unfold scoreAnswer
    rw [if_neg (by simp [hq, ha]), hm]
  · intro q a acc ha
    have hd : a = "1" ∨ a = "2" ∨ a = "3" ∨ a = "4" ∨ a = "5" := by
      simpa [starDigits] using ha
    rcases hd with rfl | rfl | rfl | rfl | rfl
    · exact scoreAnswer_unscored q _ acc (by decide) (by decide) (by decide)
        (by decide) (by decide)
    · exact scoreAnswer_unscored q _ acc (by decide) (by decide) (by decide)
        (by decide) (by decide)
    · exact scoreAnswer_unscored q _ acc (by decide) (by decide) (by decide)
        (by decide) (by decide)
    · exact scoreAnswer_unscored q _ acc (by decide) (by decide) (by decide)
        (by decide) (by decide)
    · exact scoreAnswer_unscored q _ acc (by decide) (by decide) (by decide)
        (by decide) (by decide)

/-- Witness for `starRating_scoring` at the concrete answer `"4 stars"`. -/
theorem starRating_scoring_witness :
    scoreAnswer "Q" "4 stars" ⟨0, 0, 0, 0⟩
      = (if 3 ≤ 4 then (⟨0 + 4 * 20, 0, 0 + 1, 0⟩ : Score)
         else ⟨0, 0 + (5 - 4) * 20, 0, 0 + 1⟩) :=
  starRating_scoring.1 "Q" "4 stars" ⟨0, 0, 0, 0⟩ 4 (by decide) (by decide) (by decide)

/-- Claim C3, counterexample.  Question 1 of `exC3` is classified Text (its
first answer is free text), yet its second answer `Very Satisfied` is scored:
the overall satisfaction is 100, not 0, so an answer of a Text question can
contribute to the satisfaction totals. -/
theorem text_answer_scored_cx :
    ((alookup "A" (generateAnalysis exC3).departmentStats).bind
        (alookup "1")).map QInfo.type = some "Text"
    ∧ (generateAnalysis exC3).overview.averageSatisfaction = 100
    ∧ (100 : Nat) ≠ 0 := by
  refine ⟨by decide, by decide, by decide⟩

/-- Claim C3, amended.  The scorer never consults the cached question type: it
decides per answer.  An answer that matches neither the star pattern nor one
of the four scored vocabulary options — in particular the typical answer of a
MultiSelect or Text question — contributes to neither metric and is only
tallied as option counts. -/
theorem typeless_answer_unscored (q a : String) (acc : Score)
    (h1 : starMatch a = none)
    (h2 : jsTrim a ∉ (["Very Satisfied", "Satisfied", "Dissatisfied",
        "Very Dissatisfied"] : List String)) :
    scoreAnswer q a acc = acc := by
  refine scoreAnswer_unscored q a acc h1 ?_ ?_ ?_ ?_ <;>
    · intro h
      apply h2
      rw [h]
      decide

/-- Witness for `typeless_answer_unscored` at the MultiSelect answer
`"Red, Blue"`. -/
theorem typeless_answer_unscored_witness :
    scoreAnswer "Q" "Red, Blue" ⟨1, 2, 3, 4⟩ = ⟨1, 2, 3, 4⟩ :=
  typeless_answer_unscored "Q" "Red, Blue" ⟨1, 2, 3, 4⟩ (by decide) (by decide)

theorem alookup_insEntry (dr : List Row) (p : QA) {q : String}
    {m : List (String × QInfo)} {qi : QInfo} (h : alookup q m = some qi) :
    alookup q (insEntry dr m p) = some qi := by
  unfold insEntry
  split
  · exact h
  · exact alookup_append_left h _

theorem stepQA_type_preserved (dr : List Row) (p : QA) (q t : String)
    (m : List (String × QInfo))
    (h : ∃ qi, alookup q m = some qi ∧ qi.type = t) :
    ∃ qi, alookup q (stepQA dr m p) = some qi ∧ qi.type = t := by
  obtain ⟨qi, hl, ht⟩ := h
  have hl' : alookup q (insEntry dr m p) = some qi := alookup_insEntry dr p hl
  unfold stepQA
  split
  · exact ⟨qi, hl', ht⟩
  · by_cases hq : p.qnum = q
    · subst hq
      refine ⟨tallyAnswer p.answer qi, ?_, ?_⟩
      · rw [alookup_updateEntry_eq, hl']
        rfl
      · rw [tallyAnswer_type]
        exact ht
    · rw [alookup_updateEntry_ne _ _ hq]
      exact ⟨qi, hl', ht⟩

/-- Claim C4, counterexample.  The type is cached the first time the question
column is seen, not the first time a non-empty answer is seen: in `exC4` the
first row's answer cell is empty, so the cached type is Text, even though the
first (and only) non-empty answer, `5 stars`, classifies as StarRating. -/
theorem cache_before_nonempty_cx :
    ((alookup "A" (generateAnalysis exC4).departmentStats).bind
        (alookup "1")).map QInfo.type = some "Text"
    ∧ allAnswersFor exC4 "1" = ["5 stars"]
    ∧ determineQuestionType "5 stars" ["5 stars"] = "StarRating"
    ∧ "Text" ≠ "StarRating" := by
  refine ⟨by decide, by decide, by decide, by decide⟩

/-- Claim C4, amended.  For every (department, question) pair the question
type is cached the first time the question column is seen in a response —
even when that row's answer is empty or the sentinel (an empty first answer
classifies as Text) — and every later answer of the same question reuses the
cached type even when that answer would individually classify differently:
folding any further response into the analysis map preserves the cached type
of an existing entry. -/
theorem questionType_cached (dr : List Row) (m : List (String × QInfo))
    (r : Row) (q : String) (qi : QInfo)
    (h : alookup q m = some qi) :
    (∃ qi', alookup q (stepRow dr m r) = some qi' ∧ qi'.type = qi.type)
    ∧ (∀ l, determineQuestionType "" l = "Text") := by
  constructor
  · exact foldl_inv (fun m0 => ∃ qi', alookup q m0 = some qi' ∧ qi'.type = qi.type)
      (stepQA dr) (fun m0 p hp => stepQA_type_preserved dr p q qi.type m0 hp)
      r.qa m ⟨qi, h, rfl⟩
  · intro l
    rfl

/-- Witness for `questionType_cached`: an entry cached as Text stays Text
after a row answering `5 stars`. -/
theorem questionType_cached_witness :
    (∃ qi', alookup "1"
        (stepRow [] [("1", ⟨"Rate", [], 0, "Text"⟩)] ⟨"A", [⟨"1", "Rate", "5 stars"⟩]⟩)
        = some qi' ∧ qi'.type = "Text")
    ∧ (∀ l, determineQuestionType "" l = "Text") :=
  questionType_cached [] [("1", ⟨"Rate", [], 0, "Text"⟩)]
    ⟨"A", [⟨"1", "Rate", "5 stars"⟩]⟩ "1" ⟨"Rate", [], 0, "Text"⟩ (by decide)

/-- Claim C5.  The overall satisfaction and dissatisfaction of the analysis
overview are `calculateSatisfactionPercentage` applied to the pooled list of
all responses, and this is not the average of the per-department percentages:
on `exC5` the pooled value is 83 while the mean of the department percentages
(100 for A, 75 for B) is 88. -/
theorem overall_from_pooled :
    (∀ rs : List Row,
      (generateAnalysis rs).overview.averageSatisfaction
          = (calculateSatisfactionPercentage rs).satisfaction
      ∧ (generateAnalysis rs).overview.averageDissatisfaction
          = (calculateSatisfactionPercentage rs).dissatisfaction)
    ∧ (generateAnalysis exC5).overview.averageSatisfaction = 83
    ∧ deptAvgOfAverages exC5 = 88
    ∧ (83 : Nat) ≠ 88 :=
  ⟨fun rs => ⟨rfl, rfl⟩, by decide, by decide, by decide⟩

/-- The strict-maximum fold either returns its accumulator (everything is
bounded by it) or a list element that strictly dominates the accumulator and
every element before it, and weakly dominates every element after it. -/
theorem bestFold_spec (f : String → Nat) :
    ∀ (ds : List String) (acc : String × Nat),
      (bestFold f ds acc = acc ∧ ∀ d ∈ ds, f d ≤ acc.2)
      ∨ (∃ ds₁ ds₂, ds = ds₁ ++ (bestFold f ds acc).1 :: ds₂
          ∧ (bestFold f ds acc).2 = f (bestFold f ds acc).1
          ∧ acc.2 < (bestFold f ds acc).2
          ∧ (∀ d ∈ ds₁, f d < (bestFold f ds acc).2)
          ∧ (∀ d ∈ ds₂, f d ≤ (bestFold f ds acc).2)) := by
  intro ds
  induction ds with
  | nil =>
    intro acc
    left
    exact ⟨rfl, by simp⟩
  | cons d rest ih =>
    intro acc
    have hstep : bestFold f (d :: rest) acc
        = bestFold f rest (if f d > acc.2 then (d, f d) else acc) := rfl
    by_cases hd : f d > acc.2
    · rw [if_pos hd] at hstep
      rcases ih (d, f d) with ⟨heq, hall⟩ | ⟨ds₁, ds₂, hsplit, hfix, hlt, hbefore, hafter⟩
      · right
        rw [hstep, heq]
        exact ⟨[], rest, rfl, rfl, hd, by simp, hall⟩
      · right
        rw [hstep]
        refine ⟨d :: ds₁, ds₂, by rw [List.cons_append, ← hsplit], hfix,
          lt_trans hd hlt, ?_, hafter⟩
        intro e he
        rcases List.mem_cons.1 he with rfl | he
        · exact hlt
        · exact hbefore e he
    · rw [if_neg hd] at hstep
      rcases ih acc with ⟨heq, hall⟩ | ⟨ds₁, ds₂, hsplit, hfix, hlt, hbefore, hafter⟩
      · left
        rw [hstep, heq]
        refine ⟨rfl, ?_⟩
        intro e he
        rcases List.mem_cons.1 he with rfl | he
        · exact Nat.le_of_not_lt hd
        · exact hall e he
      · right
        rw [hstep]
        refine ⟨d :: ds₁, ds₂, by rw [List.cons_append, ← hsplit], hfix, hlt, ?_,
          hafter⟩
        intro e he
        rcases List.mem_cons.1 he with rfl | he
        · exact lt_of_le_of_lt (Nat.le_of_not_lt hd) hlt
        · exact hbefore e he

/-- Claim C6, counterexample.  A department whose name is the empty string
(an empty `Department` cell) can have the strictly highest dissatisfaction —
here 100, the only department — yet the overview reports `"None"` because the
winning name is falsy, contradicting the claim that the winner is reported
and `"None"` appears only when no department has any dissatisfaction. -/
theorem empty_department_ranking_cx :
    (generateAnalysis exC6).overview.departmentWithHighestDissatisfaction = "None"
    ∧ uniqueDepartments exC6 = [""]
    ∧ deptDissat exC6 "" = 100
    ∧ (0 : Nat) < 100
    ∧ "None" ≠ "" := by
  refine ⟨by decide, by decide, by decide, by decide, by decide⟩

/-- Claim C6, amended.  The reported most-dissatisfied department is the
department with the strictly highest dissatisfaction percentage, ties broken
by first occurrence in input order; `"None"` is reported either when no
department has a positive dissatisfaction percentage or when the winning
department's name is the empty string. -/
theorem dissat_ranking (rs : List Row) :
    ((generateAnalysis rs).overview.departmentWithHighestDissatisfaction
        = (if (findHighestDissat rs).1 = "" then "None" else (findHighestDissat rs).1))
    ∧ ((findHighestDissat rs = ("", 0)
          ∧ ∀ d ∈ uniqueDepartments rs, deptDissat rs d = 0)
       ∨ (∃ ds₁ ds₂, uniqueDepartments rs = ds₁ ++ (findHighestDissat rs).1 :: ds₂
           ∧ (findHighestDissat rs).2 = deptDissat rs (findHighestDissat rs).1
           ∧ 0 < (findHighestDissat rs).2
           ∧ (∀ d ∈ ds₁, deptDissat rs d < (findHighestDissat rs).2)
           ∧ (∀ d ∈ ds₂, deptDissat rs d ≤ (findHighestDissat rs).2))) := by
  constructor
  · rfl
  · rcases bestFold_spec (deptDissat rs) (uniqueDepartments rs) ("", 0) with
      ⟨heq, hall⟩ | h
    · left
      exact ⟨heq, fun d hd => Nat.le_zero.mp (hall d hd)⟩
    · right
      exact h

/-- Claim C7, counterexample.  The answer `7 stars` contributes a satisfied
amount of `7 × 20 = 140`, outside `[0, 100]`, and the amount is accumulated
(the overall satisfaction becomes 140) instead of being treated as none. -/
theorem amount_overflow_cx :
    scoreAnswer "Q" "7 stars" ⟨0, 0, 0, 0⟩ = ⟨140, 0, 1, 0⟩
    ∧ (generateAnalysis exC7).overview.averageSatisfaction = 140
    ∧ ¬ (140 : Nat) ≤ 100 := by
  refine ⟨by decide, by decide, by decide⟩

/-- Claim C7, amended.  Every dissatisfied amount a single answer contributes
lies in `[0, 100]`, and so does every satisfied amount except those of star
answers with more than 5 stars, which contribute `stars × 20 > 100` and are
accumulated without any guard. -/
theorem amount_range (q a : String) (acc : Score) :
    ((scoreAnswer q a acc).dissScore - acc.dissScore ≤ 100)
    ∧ ((scoreAnswer q a acc).satScore - acc.satScore ≤ 100
       ∨ ∃ s, starMatch a = some s ∧ 5 < s
           ∧ (scoreAnswer q a acc).satScore = acc.satScore + s * 20) := by
  unfold scoreAnswer
  by_cases h : a = "" ∨ q = ""
  · rw [if_pos h]
    exact ⟨by omega, Or.inl (by omega)⟩
  · rw [if_neg h]
    cases hm : starMatch a with
    | some s =>
      dsimp only
      by_cases hs : 3 ≤ s
      · rw [if_pos hs]
        refine ⟨by dsimp; omega, ?_⟩
        by_cases h5 : 5 < s
        · exact Or.inr ⟨s, rfl, h5, rfl⟩
        · exact Or.inl (by dsimp; omega)
      · rw [if_neg hs]
        exact ⟨by dsimp; omega, Or.inl (by dsimp; omega)⟩
    | none =>
      dsimp only
      split_ifs <;> exact ⟨by (try dsimp); omega, Or.inl (by (try dsimp); omega)⟩

/-- Claim C8.  Whenever no answer qualified for a metric (its contribution
count is zero), the corresponding percentage is exactly 0: the division is
guarded, so no division by zero is performed and the total function returns a
plain natural number.  Applied to a department's filtered response list this
is the per-department statement; applied to all responses it is the overall
one. -/
theorem zero_qualifying_zero_metrics (rs : List Row) :
    ((scoreTotals rs).satCount = 0 →
      (calculateSatisfactionPercentage rs).satisfaction = 0)
    ∧ ((scoreTotals rs).dissCount = 0 →
      (calculateSatisfactionPercentage rs).dissatisfaction = 0) := by
  constructor
  · intro h
    simp [calculateSatisfactionPercentage, h]
  · intro h
    simp [calculateSatisfactionPercentage, h]

/-- Witness for `zero_qualifying_zero_metrics` on a list with one unscorable
free-text answer. -/
theorem zero_qualifying_zero_metrics_witness :
    (calculateSatisfactionPercentage [⟨"A", [⟨"1", "Q", "hello"⟩]⟩]).satisfaction = 0
    ∧ (calculateSatisfactionPercentage [⟨"A", [⟨"1", "Q", "hello"⟩]⟩]).dissatisfaction
        = 0 :=
  ⟨(zero_qualifying_zero_metrics [⟨"A", [⟨"1", "Q", "hello"⟩]⟩]).1 (by decide),
   (zero_qualifying_zero_metrics [⟨"A", [⟨"1", "Q", "hello"⟩]⟩]).2 (by decide)⟩

theorem alookup_addToGroup_self (gs : List (String × List Row)) (k : String)
    (r : Row) : ∃ g, alookup k (addToGroup gs k r) = some g ∧ r ∈ g := by
  induction gs with
  | nil =>
    refine ⟨[r], ?_, List.mem_singleton_self r⟩
    simp [addToGroup, alookup]
  | cons e rest ih =>
    obtain ⟨d, g0⟩ := e
    by_cases hd : d = k
    · subst hd
      refine ⟨g0 ++ [r], ?_, List.mem_append_right _ (List.mem_singleton_self r)⟩
      simp [addToGroup, alookup]
    · obtain ⟨g, hg, hr⟩ := ih
      refine ⟨g, ?_, hr⟩
      simp only [addToGroup]
      rw [if_neg hd]
      simp only [alookup]
      rw [if_neg hd]
      exact hg

theorem alookup_addToGroup_mono (gs : List (String × List Row)) (k k' : String)
    (r' : Row) {g : List Row} (h : alookup k gs = some g) :
    ∃ g', alookup k (addToGroup gs k' r') = some g' ∧ ∀ x ∈ g, x ∈ g' := by
  induction gs with
  | nil => simp [alookup] at h
  | cons e rest ih =>
    obtain ⟨d, g0⟩ := e
    simp only [alookup] at h
    simp only [addToGroup]
    by_cases hdk' : d = k'
    · rw [if_pos hdk']
      by_cases hdk : d = k
      · rw [if_pos hdk] at h
        obtain rfl : g0 = g := Option.some.inj h
        refine ⟨g0 ++ [r'], ?_, fun x hx => List.mem_append_left _ hx⟩
        simp only [alookup]
        rw [if_pos hdk]
      · rw [if_neg hdk] at h
        refine ⟨g, ?_, fun x hx => hx⟩
        simp only [alookup]
        rw [if_neg hdk]
        exact h
    · rw [if_neg hdk']
      by_cases hdk : d = k
      · rw [if_pos hdk] at h
        obtain rfl : g0 = g := Option.some.inj h
        refine ⟨g0, ?_, fun x hx => hx⟩
        simp only [alookup]
        rw [if_pos hdk]
      · rw [if_neg hdk] at h
        obtain ⟨g', hg', hsub⟩ := ih h
        refine ⟨g', ?_, hsub⟩
        simp only [alookup]
        rw [if_neg hdk]
        exact hg'

theorem foldGroups_mono (k : String) :
    ∀ (rows : List Row) (gs : List (String × List Row)) (g : List Row),
      alookup k gs = some g →
      ∃ g', alookup k (rows.foldl
          (fun gs r => addToGroup gs (deptOrUnknown r.department) r) gs) = some g'
        ∧ ∀ x ∈ g, x ∈ g' := by
  intro rows
  induction rows with
  | nil =>
    intro gs g h
    exact ⟨g, h, fun x hx => hx⟩
  | cons r rest ih =>
    intro gs g h
    obtain ⟨g1, hg1, hsub1⟩ :=
      alookup_addToGroup_mono gs k (deptOrUnknown r.department) r h
    obtain ⟨g2, hg2, hsub2⟩ := ih _ g1 hg1
    exact ⟨g2, hg2, fun x hx => hsub2 x (hsub1 x hx)⟩

theorem foldGroups_mem :
    ∀ (rows : List Row) (gs : List (String × List Row)) (r : Row), r ∈ rows →
      ∃ g, alookup (deptOrUnknown r.department) (rows.foldl
          (fun gs r0 => addToGroup gs (deptOrUnknown r0.department) r0) gs) = some g
        ∧ r ∈ g := by
  intro rows
  induction rows with
  | nil =>
    intro gs r h
    simp at h
  | cons r0 rest ih =>
    intro gs r h
    rcases List.mem_cons.1 h with rfl | h0
    · obtain ⟨g1, hg1, hr⟩ := alookup_addToGroup_self gs (deptOrUnknown r.department) r
      obtain ⟨g2, hg2, hsub⟩ := foldGroups_mono (deptOrUnknown r.department) rest _ g1 hg1
      exact ⟨g2, hg2, hsub r hr⟩
    · exact ih _ r h0

theorem uniqueDepartments_mem_aux (d : String) :
    ∀ (rows : List Row) (acc : List String),
      (d ∈ acc ∨ ∃ r, r ∈ rows ∧ r.department = d) →
      d ∈ rows.foldl
        (fun acc r => if r.department ∈ acc then acc else acc ++ [r.department]) acc := by
  intro rows
  induction rows with
  | nil =>
    intro acc h
    rcases h with h | ⟨r, hr, _⟩
    · exact h
    · simp at hr
  | cons r0 rest ih =>
    intro acc h
    apply ih
    dsimp only
    rcases h with h | ⟨r, hr, hd⟩
    · left
      by_cases hmem : r0.department ∈ acc
      · rw [if_pos hmem]
        exact h
      · rw [if_neg hmem]
        exact List.mem_append_left _ h
    · rcases List.mem_cons.1 hr with rfl | h0
      · left
        by_cases hmem : r.department ∈ acc
        · rw [if_pos hmem, ← hd]
          exact hmem
        · rw [if_neg hmem, ← hd]
          exact List.mem_append_right _ (List.mem_singleton_self _)
      · right
        exact ⟨r, h0, hd⟩

/-- Claim C9, counterexample.  A row whose `Department` cell is empty is
grouped by `generateAnalysis` under the empty string, not under `"Unknown"`:
the produced analysis has department key `""` and no `"Unknown"` key. -/
theorem no_unknown_default_cx :
    (generateAnalysis exC9).departmentStats.map Prod.fst = [""]
    ∧ "Unknown" ∉ (generateAnalysis exC9).departmentStats.map Prod.fst := by
  refine ⟨by decide, by decide⟩

/-- Claim C9, amended.  The `"Unknown"` default is applied only by the
`analyze` grouping (`response.department || "Unknown"`): there a row with an
empty department lands in the `"Unknown"` group.  `generateAnalysis` — the
path that produces the analysis with per-department metrics and ranking —
keys the same row by the raw empty string instead. -/
theorem unknown_department_default (rs : List Row) (r : Row)
    (h1 : r ∈ rs) (h2 : r.department = "") :
    (∃ g, alookup "Unknown" (analyzeGroups rs) = some g ∧ r ∈ g)
    ∧ "" ∈ (generateAnalysis rs).departmentStats.map Prod.fst := by
  constructor
  · have hk : deptOrUnknown r.department = "Unknown" := by
      rw [h2]
      rfl
    have hg := foldGroups_mem rs [] r h1
    rw [hk] at hg
    exact hg
  · have hmap : (generateAnalysis rs).departmentStats.map Prod.fst
        = uniqueDepartments rs := by
      show ((uniqueDepartments rs).map
          (fun d => (d, questionAnalysisFor (rs.filter (fun r0 => r0.department = d))))).map
            Prod.fst = uniqueDepartments rs
      induction uniqueDepartments rs with
      | nil => rfl
      | cons d rest ih => simp_all
    rw [hmap, ← h2]
    exact uniqueDepartments_mem_aux r.department rs [] (Or.inr ⟨r, h1, rfl⟩)

/-- Witness for `unknown_department_default` on `exC9`. -/
theorem unknown_department_default_witness :
    (∃ g, alookup "Unknown" (analyzeGroups exC9) = some g
        ∧ (⟨"", [⟨"1", "Q", "Hello"⟩]⟩ : Row) ∈ g)
    ∧ "" ∈ (generateAnalysis exC9).departmentStats.map Prod.fst :=
  unknown_department_default exC9 ⟨"", [⟨"1", "Q", "Hello"⟩]⟩ (by decide) rfl

theorem tallyAnswer_star_keys {a : String} {qi : QInfo}
    (ht : qi.type = "StarRating")
    (h : ∀ pr ∈ qi.counts, pr.1 ∈ starDigits) :
    ∀ pr ∈ (tallyAnswer a qi).counts, pr.1 ∈ starDigits := by
  unfold tallyAnswer
  rw [if_pos ht]
  intro pr hpr
  dsimp only at hpr
  by_cases hk : jsTrim a ∈ starDigits
  · rw [if_pos hk] at hpr
    rcases mem_bump_keys hpr with h1 | ⟨e, he, hpe⟩
    · rw [h1]
      exact hk
    · rw [hpe]
      exact h e he
  · rw [if_neg hk] at hpr
    exact h pr hpr

theorem insEntry_starInv (dr : List Row) (p : QA)
    {m : List (String × QInfo)} (h : StarInv m) : StarInv (insEntry dr m p) := by
  unfold insEntry
  split
  · exact h
  · intro e he ht pr hpr
    rcases List.mem_append.1 he with h1 | h1
    · exact h e h1 ht pr hpr
    · rw [List.mem_singleton.1 h1] at hpr
      simp [mkEntry] at hpr

theorem stepQA_starInv (dr : List Row) (p : QA)
    {m : List (String × QInfo)} (h : StarInv m) : StarInv (stepQA dr m p) := by
  have h' : StarInv (insEntry dr m p) := insEntry_starInv dr p h
  unfold stepQA
  split
  · exact h'
  · intro e he ht pr hpr
    rcases mem_updateEntry he with h1 | ⟨e0, he0, heq⟩
    · exact h' e h1 ht pr hpr
    · subst heq
      dsimp only at ht hpr
      have ht0 : e0.2.type = "StarRating" := by
        rw [← tallyAnswer_type p.answer e0.2]
        exact ht
      exact tallyAnswer_star_keys ht0 (h' e0 he0 ht0) pr hpr

theorem questionAnalysisFor_starInv (dr : List Row) :
    StarInv (questionAnalysisFor dr) := by
  unfold questionAnalysisFor
  refine foldl_inv StarInv (stepRow dr) ?_ dr [] ?_
  · intro m r hm
    unfold stepRow
    exact foldl_inv StarInv (stepQA dr) (fun m0 p h0 => stepQA_starInv dr p h0) r.qa m hm
  · intro e he
    simp at he

/-- Claim C10.  In the produced analysis, every question entry cached as
StarRating counts only options drawn from the bare digits `1`-`5`: an answer
like `"4 stars"` may be scored but is never added to that question's option
counts. -/
theorem starRating_counts_only_digits (rs : List Row) (dept qn : String)
    (qa : List (String × QInfo)) (qi : QInfo)
    (h1 : alookup dept (generateAnalysis rs).departmentStats = some qa)
    (h2 : alookup qn qa = some qi)
    (h3 : qi.type = "StarRating") :
    ∀ p ∈ qi.counts, p.1 ∈ starDigits := by
  have hqa : qa = questionAnalysisFor (rs.filter (fun r => r.department = dept)) :=
    alookup_map_graph
      (fun d => questionAnalysisFor (rs.filter (fun r => r.department = d)))
      (uniqueDepartments rs) dept qa h1
  subst hqa
  exact questionAnalysisFor_starInv _ (qn, qi) (alookup_mem h2) h3

/-- Witness for `starRating_counts_only_digits` on `exC10`: the answers were
`5 stars` (scored form, not counted) and `4` (counted), and the single count
key `4` lies in `1`-`5`. -/
theorem starRating_counts_only_digits_witness :
    ("4", 1).1 ∈ starDigits :=
  starRating_counts_only_digits exC10 "A" "1"
    [("1", ⟨"Q", [("4", 1)], 2, "StarRating"⟩)] ⟨"Q", [("4", 1)], 2, "StarRating"⟩
    (by decide) (by decide) (by decide) ("4", 1) (by decide)

end Survey
